import Mathlib

/-!
# Production webpack configuration of fv-be

A shallow embedding of `fv_be/webpack/prod.config.js`.  The module reads two
variables of the process environment, derives the domain that serves the static
files, and hands an overlay object to `merge` together with the common
configuration.  The development below embeds

* the values a configuration can hold (`JsValue`) and the process environment
  (`Env`),
* the three constants of the module (`s3BucketName`, `awsS3Domain`, `staticUrl`),
  the overlay literal and the exported value (`moduleExports`),
* the deep merge of two configuration objects (`merge`), which belongs to the
  package `webpack-merge` and is described by the specification only,

and then settles the statements of the specification about them.
-/

namespace ProdConfig

/-! ## Values and objects -/

/-- Data a configuration object can hold: the JSON-like fragment of JavaScript values. -/
inductive JsValue where
  | null
  | bool (b : Bool)
  | num (n : Int)
  | str (s : String)
  | arr (items : List JsValue)
  | obj (fields : List (String × JsValue))

/-- An object: its properties in insertion order. -/
abbrev Config := List (String × JsValue)

/-- The process environment: a variable is either set to a string or absent
(reading it gives `undefined`). -/
abbrev Env := String → Option String

/-- An environment given by the list of the variables that are set. -/
def Env.ofList (vars : List (String × String)) : Env :=
  fun name => (vars.find? fun p => p.1 == name).map Prod.snd

/-- Property read `o[k]` on an object; `none` is `undefined`. -/
def getKey (k : String) : Config → Option JsValue
  | [] => none
  | (k', v) :: rest => if k' = k then some v else getKey k rest

/-- Read along a key path, `v.k1.k2...`; `none` when a step of the path is missing. -/
def getPath : JsValue → List String → Option JsValue
  | v, [] => some v
  | .obj fields, k :: ks =>
      match getKey k fields with
      | some v => getPath v ks
      | none => none
  | _, _ :: _ => none

/-! ## The external deep merge -/

mutual
/-- Modelled from the spec: the rule by which the external `merge` of the package
`webpack-merge` (which is not part of the repository) combines the base value `a`
and the overlay value `b` found at the same key: two nested objects are merged key
by key, and in every other case the overlay value overrides the base value
(glossary, "Deep merge").  The spec speaks of nested objects only and does not say
how two arrays at the same key path combine, so that rule is the parameter `join`. -/
def customizer (join : List JsValue → List JsValue → List JsValue) :
    JsValue → JsValue → JsValue
  | .obj fa, .obj fb =>
      .obj (mergeShared join fa fb ++ fb.filter fun p => (getKey p.1 fa).isNone)
  | .arr xs, .arr ys => .arr (join xs ys)
  | _, b => b
termination_by structural a => a
/-- Modelled from the spec: the keys of the base object `a` in the merged object
(the external `merge` is not part of the repository): a key the overlay `b` lacks
keeps the base value, a key both have holds the combination of the two values. -/
def mergeShared (join : List JsValue → List JsValue → List JsValue) :
    Config → Config → Config
  | [], _ => []
  | (k, va) :: rest, b =>
      (k, match getKey k b with
          | none => va
          | some vb => customizer join va vb) :: mergeShared join rest b
termination_by structural a => a
end

/-- Modelled from the spec: `merge(a, b)` of the package `webpack-merge`, which is
not part of the repository: the deep merge of the overlay `b` onto the base `a`
with last-write-wins semantics for nested objects (§6 and the glossary).  The
result has the keys of `a` followed by the keys only `b` has. -/
def merge (join : List JsValue → List JsValue → List JsValue) (a b : Config) : Config :=
  mergeShared join a b ++ b.filter fun p => (getKey p.1 a).isNone

/-! ## The module `prod.config.js` -/

/-- A template literal substitution of a value that is a string or `undefined`:
`undefined` is written as the text "undefined". -/
def interpolate : Option String → String
  | some s => s
  | none => "undefined"

/-- JavaScript truthiness of a value that is a string or `undefined`: only a
non-empty string is truthy. -/
def truthy : Option String → Bool
  | some s => decide (s ≠ "")
  | none => false

/-- The constant `s3BucketName`. -/
def s3BucketName (env : Env) : Option String :=
  env "DJANGO_AWS_STORAGE_BUCKET_NAME"

/-- The constant `awsS3Domain`: the custom domain when it is truthy, else the
domain derived from the bucket name. -/
def awsS3Domain (env : Env) : Option String :=
  if truthy (env "DJANGO_AWS_S3_CUSTOM_DOMAIN") then
    env "DJANGO_AWS_S3_CUSTOM_DOMAIN"
  else
    some (interpolate (s3BucketName env) ++ ".s3.amazonaws.com")

/-- The constant `staticUrl`. -/
def staticUrl (env : Env) : String :=
  "https://" ++ interpolate (awsS3Domain env) ++ "/static/"

/-- The object literal that is the second argument of `merge`. -/
def overlay (env : Env) : Config :=
  [ ("mode", .str "production"),
    ("devtool", .str "source-map"),
    ("bail", .bool true),
    ("output", .obj [("publicPath", .str (staticUrl env ++ "webpack_bundles/"))]) ]

/-- The value of `module.exports`: the overlay merged onto the common
configuration, which the module `./common.config` supplies. -/
def moduleExports (join : List JsValue → List JsValue → List JsValue) (env : Env)
    (commonConfig : Config) : Config :=
  merge join commonConfig (overlay env)

/-- An error thrown while the module is loaded. -/
inductive JsError where
  | mergeFailure (message : String)

/-- Modelled from the spec: loading the module, as a computation that either
yields the exported configuration or throws.  By §4.1 and §7 the only failure is
one the external merge function reports for a malformed base configuration; which
bases it rejects is outside the repository, so its test is the parameter
`accepts`.  The statements of the module itself (two environment reads, two
template literals, a conditional) have no throwing case. -/
def requireProdConfig (accepts : Config → Bool)
    (join : List JsValue → List JsValue → List JsValue) (env : Env)
    (commonConfig : Config) : Except JsError Config :=
  if accepts commonConfig then
    .ok (moduleExports join env commonConfig)
  else
    .error (.mergeFailure "malformed base configuration")

/-! ## The specification's record of build settings -/

/-- The field `resolvedDomain` of the spec (§3): the custom domain if present and
non-empty, else the bucket name followed by ".s3.amazonaws.com". -/
def resolvedDomain (bucketName : String) (customDomain : Option String) : String :=
  match customDomain with
  | some d => if d = "" then bucketName ++ ".s3.amazonaws.com" else d
  | none => bucketName ++ ".s3.amazonaws.com"

/-- The field `staticUrlPrefix` of the spec (§3). -/
def staticUrlPrefix (bucketName : String) (customDomain : Option String) : String :=
  "https://" ++ resolvedDomain bucketName customDomain ++ "/static/"

/-- The field `publicPath` of the spec (§3). -/
def publicPath (bucketName : String) (customDomain : Option String) : String :=
  staticUrlPrefix bucketName customDomain ++ "webpack_bundles/"

/-- The text `s` contains `part` as a substring. -/
def HasSubstring (s part : String) : Prop :=
  ∃ before after : String, s = before ++ part ++ after

/-- The environment in which the two variables the module reads hold the given
inputs and no other variable is set. -/
def envOfInputs (bucketName customDomain : Option String) : Env :=
  fun name =>
    if name = "DJANGO_AWS_STORAGE_BUCKET_NAME" then bucketName
    else if name = "DJANGO_AWS_S3_CUSTOM_DOMAIN" then customDomain
    else none

/-- The builder of the spec (§4.1) as a function of its three inputs. -/
def buildConfig (join : List JsValue → List JsValue → List JsValue)
    (bucketName customDomain : Option String) (baseConfig : Config) : Config :=
  moduleExports join (envOfInputs bucketName customDomain) baseConfig

/-- The four key paths the overlay writes. -/
def overlayPaths : List (List String) :=
  [["mode"], ["devtool"], ["bail"], ["output", "publicPath"]]

/-! ## Sample inputs -/

/-- A common configuration with an entry point and an output section. -/
def sampleCommon : Config :=
  [ ("entry", .str "./src/index.js"),
    ("mode", .str "development"),
    ("output", .obj [("path", .str "/app/dist"), ("filename", .str "[name].js"),
                      ("publicPath", .str "/static/")]),
    ("plugins", .arr [.str "tracker"]) ]

/-- Array rule of `webpack-merge`: concatenation. -/
def concatArrays (xs ys : List JsValue) : List JsValue := xs ++ ys

/-! ## Lemmas on reading a merged object -/

theorem getKey_append (k : String) (xs ys : Config) :
    getKey k (xs ++ ys) = (getKey k xs).orElse fun _ => getKey k ys := by
  induction xs with
  | nil => simp [getKey]
  | cons p rest ih =>
    obtain ⟨k', v⟩ := p
    by_cases h : k' = k
    · simp [getKey, h]
    · simp [getKey, h, ih]

theorem getKey_mergeShared (join : List JsValue → List JsValue → List JsValue)
    (k : String) (a b : Config) :
    getKey k (mergeShared join a b) =
      (getKey k a).map fun va =>
        match getKey k b with
        | none => va
        | some vb => customizer join va vb := by
  induction a with
  | nil => simp [getKey, mergeShared]
  | cons p rest ih =>
    obtain ⟨k', v⟩ := p
    by_cases h : k' = k
    · subst h
      simp [getKey, mergeShared]
    · simp [getKey, mergeShared, h, ih]

theorem getKey_filter_absent (k : String) (a b : Config) (h : getKey k a = none) :
    getKey k (b.filter fun p => (getKey p.1 a).isNone) = getKey k b := by
  induction b with
  | nil => simp [getKey]
  | cons p rest ih =>
    obtain ⟨k', v⟩ := p
    by_cases hk : k' = k
    · subst hk
      simp [List.filter, h, getKey]
    · cases hf : (getKey k' a).isNone
      · simp [List.filter, hf, getKey, hk, ih]
      · simp [List.filter, hf, getKey, hk, ih]

/-- Reading a key of a merged object, by the presence of the key in the base and
in the overlay. -/
theorem getKey_merge (join : List JsValue → List JsValue → List JsValue)
    (k : String) (a b : Config) :
    getKey k (merge join a b) =
      match getKey k a, getKey k b with
      | some va, some vb => some (customizer join va vb)
      | some va, none => some va
      | none, vb => vb := by
  unfold merge
  rw [getKey_append, getKey_mergeShared]
  cases ha : getKey k a with
  | none => simp [getKey_filter_absent k a b ha]
  | some va =>
    cases hb : getKey k b <;> simp

theorem customizer_str (join : List JsValue → List JsValue → List JsValue)
    (a : JsValue) (s : String) : customizer join a (.str s) = .str s := by
  cases a <;> simp [customizer]

theorem customizer_bool (join : List JsValue → List JsValue → List JsValue)
    (a : JsValue) (t : Bool) : customizer join a (.bool t) = .bool t := by
  cases a <;> simp [customizer]

theorem customizer_obj (join : List JsValue → List JsValue → List JsValue)
    (fa fb : Config) : customizer join (.obj fa) (.obj fb) = .obj (merge join fa fb) := by
  simp [customizer, merge]

/-- An overlay key holding a string reads back as that string, whatever the base. -/
theorem getKey_merge_str (join : List JsValue → List JsValue → List JsValue)
    (k s : String) (a b : Config) (hb : getKey k b = some (.str s)) :
    getKey k (merge join a b) = some (.str s) := by
  rw [getKey_merge, hb]
  cases getKey k a <;> simp [customizer_str]

/-- An overlay key holding a boolean reads back as that boolean, whatever the base. -/
theorem getKey_merge_bool (join : List JsValue → List JsValue → List JsValue)
    (k : String) (t : Bool) (a b : Config) (hb : getKey k b = some (.bool t)) :
    getKey k (merge join a b) = some (.bool t) := by
  rw [getKey_merge, hb]
  cases getKey k a <;> simp [customizer_bool]

/-- A key the overlay lacks reads as in the base. -/
theorem getKey_merge_absent (join : List JsValue → List JsValue → List JsValue)
    (k : String) (a b : Config) (hb : getKey k b = none) :
    getKey k (merge join a b) = getKey k a := by
  rw [getKey_merge, hb]
  cases getKey k a <;> simp

/-- Below an overlay key that holds an object, a nested key holding a string reads
back as that string, whatever the base holds at the outer key. -/
theorem getPath_merge_nested_str (join : List JsValue → List JsValue → List JsValue)
    (k k2 s : String) (a b fb : Config) (hb : getKey k b = some (.obj fb))
    (h2 : getKey k2 fb = some (.str s)) :
    getPath (.obj (merge join a b)) [k, k2] = some (.str s) := by
  simp only [getPath]
  rw [getKey_merge, hb]
  cases ha : getKey k a with
  | none => simp [getPath, h2]
  | some va =>
    cases va <;> simp [customizer, getPath, h2]
    rename_i fa
    have := getKey_merge_str join k2 s fa fb h2
    simp only [merge] at this
    simp [this]

/-- Below a key that holds an object in both, a nested key the overlay lacks reads
as in the base. -/
theorem getPath_merge_nested_absent (join : List JsValue → List JsValue → List JsValue)
    (k k2 : String) (a b fa fb : Config) (ha : getKey k a = some (.obj fa))
    (hb : getKey k b = some (.obj fb)) (h2 : getKey k2 fb = none) :
    getPath (.obj (merge join a b)) [k, k2] = getKey k2 fa := by
  simp only [getPath]
  rw [getKey_merge, ha, hb]
  simp only [customizer_obj, getPath]
  have h := getKey_merge_absent join k2 fa fb h2
  simp only [merge] at h
  rw [h]
  cases getKey k2 fa <;> simp [getPath]

/-! ## The derived strings -/

/-- The constant `awsS3Domain` always holds a string, the spec's `resolvedDomain`. -/
theorem awsS3Domain_eq (env : Env) :
    awsS3Domain env =
      some (resolvedDomain (interpolate (s3BucketName env))
        (env "DJANGO_AWS_S3_CUSTOM_DOMAIN")) := by
  unfold awsS3Domain resolvedDomain
  cases h : env "DJANGO_AWS_S3_CUSTOM_DOMAIN" with
  | none => simp [truthy]
  | some d =>
    by_cases hd : d = ""
    · simp [truthy, hd]
    · simp [truthy, hd]

theorem staticUrl_eq (env : Env) :
    staticUrl env =
      staticUrlPrefix (interpolate (s3BucketName env)) (env "DJANGO_AWS_S3_CUSTOM_DOMAIN") := by
  simp [staticUrl, staticUrlPrefix, awsS3Domain_eq, interpolate]

/-- The overlay holds the environment-derived public path below `output`. -/
theorem getKey_output_overlay (env : Env) :
    getKey "output" (overlay env) =
      some (.obj [("publicPath", .str (staticUrl env ++ "webpack_bundles/"))]) := by
  simp [overlay, getKey]

/-- In the exported configuration `output.publicPath` is the string built from
`staticUrl`, whatever the common configuration holds. -/
theorem getPath_publicPath_exports (join : List JsValue → List JsValue → List JsValue)
    (env : Env) (commonConfig : Config) :
    getPath (.obj (moduleExports join env commonConfig)) ["output", "publicPath"] =
      some (.str (staticUrl env ++ "webpack_bundles/")) :=
  getPath_merge_nested_str join "output" "publicPath" _ commonConfig (overlay env) _
    (getKey_output_overlay env) (by simp [getKey])

/-- The overlay is determined by the two variables the module reads. -/
theorem overlay_congr (env1 env2 : Env)
    (hb : env1 "DJANGO_AWS_STORAGE_BUCKET_NAME" = env2 "DJANGO_AWS_STORAGE_BUCKET_NAME")
    (hc : env1 "DJANGO_AWS_S3_CUSTOM_DOMAIN" = env2 "DJANGO_AWS_S3_CUSTOM_DOMAIN") :
    overlay env1 = overlay env2 := by
  simp [overlay, staticUrl, awsS3Domain, s3BucketName, hb, hc]

/-- At each of the four overlay paths the exported configuration reads as the
overlay does. -/
theorem getPath_exports_overlayPaths (join : List JsValue → List JsValue → List JsValue)
    (env : Env) (commonConfig : Config) (path : List String) (hp : path ∈ overlayPaths) :
    getPath (.obj (moduleExports join env commonConfig)) path =
      getPath (.obj (overlay env)) path := by
  have hmode := getKey_merge_str join "mode" "production" commonConfig (overlay env)
    (by simp [overlay, getKey])
  have hdev := getKey_merge_str join "devtool" "source-map" commonConfig (overlay env)
    (by simp [overlay, getKey])
  have hbail := getKey_merge_bool join "bail" true commonConfig (overlay env)
    (by simp [overlay, getKey])
  simp only [overlayPaths, List.mem_cons, List.mem_singleton, List.not_mem_nil,
    or_false] at hp
  rcases hp with rfl | rfl | rfl | rfl
  · simp only [getPath, moduleExports, hmode]
    simp [overlay, getKey]
  · simp only [getPath, moduleExports, hdev]
    simp [overlay, getKey]
  · simp only [getPath, moduleExports, hbail]
    simp [overlay, getKey]
  · rw [getPath_publicPath_exports]
    simp [getPath, overlay, getKey]

/-! ## The statements of the specification -/

/-- C1: for every environment and every common configuration, `output.publicPath`
of the exported configuration is "https://" ++ resolvedDomain ++ "/static/" ++
"webpack_bundles/", where resolvedDomain is the custom domain when that is present
and non-empty and the bucket name followed by ".s3.amazonaws.com" otherwise (an
absent bucket name being written "undefined"); with the bucket name "my-bucket" and
no custom domain it is "https://my-bucket.s3.amazonaws.com/static/webpack_bundles/". -/
theorem publicPath_of_exports (join : List JsValue → List JsValue → List JsValue)
    (env : Env) (commonConfig : Config) :
    getPath (.obj (moduleExports join env commonConfig)) ["output", "publicPath"] =
        some (.str ("https://" ++
          resolvedDomain (interpolate (env "DJANGO_AWS_STORAGE_BUCKET_NAME"))
            (env "DJANGO_AWS_S3_CUSTOM_DOMAIN") ++ "/static/" ++ "webpack_bundles/")) ∧
      getPath (.obj (moduleExports join
          (Env.ofList [("DJANGO_AWS_STORAGE_BUCKET_NAME", "my-bucket")]) commonConfig))
          ["output", "publicPath"] =
        some (.str "https://my-bucket.s3.amazonaws.com/static/webpack_bundles/") := by
  constructor
  · rw [getPath_publicPath_exports, staticUrl_eq]
    rfl
  · rw [getPath_publicPath_exports]
    rfl

/-- C2: for every non-empty custom domain `d`, whatever the bucket name (present,
absent or empty), `output.publicPath` is "https://" ++ d ++ "/static/webpack_bundles/",
so two environments with the custom domain `d` give the same public path. -/
theorem customDomain_overrides (join : List JsValue → List JsValue → List JsValue)
    (d : String) (env1 env2 : Env) (commonConfig : Config) (hd : d ≠ "")
    (h1 : env1 "DJANGO_AWS_S3_CUSTOM_DOMAIN" = some d)
    (h2 : env2 "DJANGO_AWS_S3_CUSTOM_DOMAIN" = some d) :
    getPath (.obj (moduleExports join env1 commonConfig)) ["output", "publicPath"] =
        some (.str ("https://" ++ d ++ "/static/webpack_bundles/")) ∧
      getPath (.obj (moduleExports join env2 commonConfig)) ["output", "publicPath"] =
        getPath (.obj (moduleExports join env1 commonConfig)) ["output", "publicPath"] := by
  have key : ∀ env : Env, env "DJANGO_AWS_S3_CUSTOM_DOMAIN" = some d →
      getPath (.obj (moduleExports join env commonConfig)) ["output", "publicPath"] =
        some (.str ("https://" ++ d ++ "/static/webpack_bundles/")) := by
    intro env h
    rw [getPath_publicPath_exports, staticUrl_eq]
    simp only [staticUrlPrefix, resolvedDomain, h, if_neg hd, String.append_assoc]
    rfl
  exact ⟨key env1 h1, by rw [key env1 h1, key env2 h2]⟩

/-- C3: an empty custom domain gives the same resolved domain and the same public
path as an absent one: the bucket-derived
"https://" ++ bucketName ++ ".s3.amazonaws.com/static/webpack_bundles/". -/
theorem empty_customDomain_falls_back (join : List JsValue → List JsValue → List JsValue)
    (envEmpty envAbsent : Env) (commonConfig : Config)
    (hb : envEmpty "DJANGO_AWS_STORAGE_BUCKET_NAME" =
      envAbsent "DJANGO_AWS_STORAGE_BUCKET_NAME")
    (hEmpty : envEmpty "DJANGO_AWS_S3_CUSTOM_DOMAIN" = some "")
    (hAbsent : envAbsent "DJANGO_AWS_S3_CUSTOM_DOMAIN" = none) :
    awsS3Domain envEmpty = awsS3Domain envAbsent ∧
      awsS3Domain envAbsent =
        some (interpolate (envAbsent "DJANGO_AWS_STORAGE_BUCKET_NAME") ++
          ".s3.amazonaws.com") ∧
      getPath (.obj (moduleExports join envEmpty commonConfig)) ["output", "publicPath"] =
        some (.str ("https://" ++ interpolate (envAbsent "DJANGO_AWS_STORAGE_BUCKET_NAME") ++
          ".s3.amazonaws.com/static/webpack_bundles/")) ∧
      getPath (.obj (moduleExports join envAbsent commonConfig)) ["output", "publicPath"] =
        some (.str ("https://" ++ interpolate (envAbsent "DJANGO_AWS_STORAGE_BUCKET_NAME") ++
          ".s3.amazonaws.com/static/webpack_bundles/")) := by
  have lit : ".s3.amazonaws.com" ++ ("/static/" ++ "webpack_bundles/") =
      ".s3.amazonaws.com/static/webpack_bundles/" := by decide
  refine ⟨?_, ?_, ?_, ?_⟩
  · simp [awsS3Domain, s3BucketName, truthy, hb, hEmpty, hAbsent]
  · simp [awsS3Domain, s3BucketName, truthy, hAbsent]
  · rw [getPath_publicPath_exports, staticUrl_eq]
    simp only [staticUrlPrefix, resolvedDomain, s3BucketName, hb, hEmpty, if_true,
      String.append_assoc, lit]
  · rw [getPath_publicPath_exports, staticUrl_eq]
    simp only [staticUrlPrefix, resolvedDomain, s3BucketName, hAbsent,
      String.append_assoc, lit]

/-- C4: for every environment and every common configuration the exported
configuration has `mode` "production", `devtool` "source-map" and `bail` true. -/
theorem exports_fixed_settings (join : List JsValue → List JsValue → List JsValue)
    (env : Env) (commonConfig : Config) :
    getKey "mode" (moduleExports join env commonConfig) = some (.str "production") ∧
      getKey "devtool" (moduleExports join env commonConfig) = some (.str "source-map") ∧
      getKey "bail" (moduleExports join env commonConfig) = some (.bool true) :=
  ⟨getKey_merge_str join "mode" "production" commonConfig (overlay env)
      (by simp [overlay, getKey]),
    getKey_merge_str join "devtool" "source-map" commonConfig (overlay env)
      (by simp [overlay, getKey]),
    getKey_merge_bool join "bail" true commonConfig (overlay env)
      (by simp [overlay, getKey])⟩

/-- Witness of C2: the bucket "my-bucket" with the custom domain "cdn.example.com",
against the same custom domain with no bucket name. -/
theorem customDomain_overrides_witness :
    ("cdn.example.com" ≠ "" ∧
      Env.ofList [("DJANGO_AWS_STORAGE_BUCKET_NAME", "my-bucket"),
        ("DJANGO_AWS_S3_CUSTOM_DOMAIN", "cdn.example.com")]
        "DJANGO_AWS_S3_CUSTOM_DOMAIN" = some "cdn.example.com" ∧
      Env.ofList [("DJANGO_AWS_S3_CUSTOM_DOMAIN", "cdn.example.com")]
        "DJANGO_AWS_S3_CUSTOM_DOMAIN" = some "cdn.example.com") ∧
    (getPath (.obj (moduleExports concatArrays
        (Env.ofList [("DJANGO_AWS_STORAGE_BUCKET_NAME", "my-bucket"),
          ("DJANGO_AWS_S3_CUSTOM_DOMAIN", "cdn.example.com")]) sampleCommon))
        ["output", "publicPath"] =
        some (.str "https://cdn.example.com/static/webpack_bundles/") ∧
      getPath (.obj (moduleExports concatArrays
        (Env.ofList [("DJANGO_AWS_S3_CUSTOM_DOMAIN", "cdn.example.com")]) sampleCommon))
        ["output", "publicPath"] =
      getPath (.obj (moduleExports concatArrays
        (Env.ofList [("DJANGO_AWS_STORAGE_BUCKET_NAME", "my-bucket"),
          ("DJANGO_AWS_S3_CUSTOM_DOMAIN", "cdn.example.com")]) sampleCommon))
        ["output", "publicPath"]) :=
  ⟨⟨by decide, by decide, by decide⟩,
    customDomain_overrides concatArrays "cdn.example.com" _ _ sampleCommon
      (by decide) (by decide) (by decide)⟩

/-- Witness of C3: the bucket "my-bucket" with an empty and with an absent custom
domain. -/
theorem empty_customDomain_falls_back_witness :
    (Env.ofList [("DJANGO_AWS_STORAGE_BUCKET_NAME", "my-bucket"),
        ("DJANGO_AWS_S3_CUSTOM_DOMAIN", "")] "DJANGO_AWS_STORAGE_BUCKET_NAME" =
      Env.ofList [("DJANGO_AWS_STORAGE_BUCKET_NAME", "my-bucket")]
        "DJANGO_AWS_STORAGE_BUCKET_NAME" ∧
      Env.ofList [("DJANGO_AWS_STORAGE_BUCKET_NAME", "my-bucket"),
        ("DJANGO_AWS_S3_CUSTOM_DOMAIN", "")] "DJANGO_AWS_S3_CUSTOM_DOMAIN" = some "" ∧
      Env.ofList [("DJANGO_AWS_STORAGE_BUCKET_NAME", "my-bucket")]
        "DJANGO_AWS_S3_CUSTOM_DOMAIN" = none) ∧
    awsS3Domain (Env.ofList [("DJANGO_AWS_STORAGE_BUCKET_NAME", "my-bucket"),
        ("DJANGO_AWS_S3_CUSTOM_DOMAIN", "")]) = some "my-bucket.s3.amazonaws.com" ∧
    getPath (.obj (moduleExports concatArrays
        (Env.ofList [("DJANGO_AWS_STORAGE_BUCKET_NAME", "my-bucket"),
          ("DJANGO_AWS_S3_CUSTOM_DOMAIN", "")]) sampleCommon)) ["output", "publicPath"] =
      some (.str "https://my-bucket.s3.amazonaws.com/static/webpack_bundles/") := by
  have h := empty_customDomain_falls_back concatArrays
    (Env.ofList [("DJANGO_AWS_STORAGE_BUCKET_NAME", "my-bucket"),
      ("DJANGO_AWS_S3_CUSTOM_DOMAIN", "")])
    (Env.ofList [("DJANGO_AWS_STORAGE_BUCKET_NAME", "my-bucket")]) sampleCommon
    (by decide) (by decide) (by decide)
  exact ⟨⟨by decide, by decide, by decide⟩, h.1.trans h.2.1, h.2.2.1⟩

/-- C5: the exported configuration is the common configuration except at the four
overridden paths: a top-level key other than `mode`, `devtool`, `bail` and `output`
reads as in the common configuration, and when the common configuration has an
`output` object, a key below `output` other than `publicPath` reads as in that
object (the overlay's `output` does not replace it wholesale). -/
theorem exports_frame (join : List JsValue → List JsValue → List JsValue)
    (env : Env) (commonConfig : Config) :
    (∀ k : String, k ≠ "mode" → k ≠ "devtool" → k ≠ "bail" → k ≠ "output" →
        getKey k (moduleExports join env commonConfig) = getKey k commonConfig) ∧
      (∀ (baseOutput : Config) (k : String),
        getKey "output" commonConfig = some (.obj baseOutput) → k ≠ "publicPath" →
        getPath (.obj (moduleExports join env commonConfig)) ["output", k] =
          getKey k baseOutput) := by
  constructor
  · intro k h1 h2 h3 h4
    apply getKey_merge_absent
    simp [overlay, getKey, Ne.symm h1, Ne.symm h2, Ne.symm h3, Ne.symm h4]
  · intro baseOutput k hbase hk
    exact getPath_merge_nested_absent join "output" k commonConfig (overlay env) baseOutput _
      hbase (getKey_output_overlay env) (by simp [getKey, Ne.symm hk])

/-- Witness of C5: in the sample configuration `entry` and `plugins` are kept, and so
are `output.path` and `output.filename`. -/
theorem exports_frame_witness :
    (("entry" : String) ≠ "mode" ∧ ("entry" : String) ≠ "devtool" ∧
      ("entry" : String) ≠ "bail" ∧ ("entry" : String) ≠ "output" ∧
      getKey "output" sampleCommon =
        some (.obj [("path", .str "/app/dist"), ("filename", .str "[name].js"),
          ("publicPath", .str "/static/")]) ∧
      ("filename" : String) ≠ "publicPath") ∧
    getKey "entry" (moduleExports concatArrays (envOfInputs (some "my-bucket") none)
        sampleCommon) = some (.str "./src/index.js") ∧
    getPath (.obj (moduleExports concatArrays (envOfInputs (some "my-bucket") none)
        sampleCommon)) ["output", "filename"] = some (.str "[name].js") :=
  ⟨⟨by decide, by decide, by decide, by decide, rfl, by decide⟩,
    (exports_frame concatArrays (envOfInputs (some "my-bucket") none) sampleCommon).1
      "entry" (by decide) (by decide) (by decide) (by decide),
    (exports_frame concatArrays (envOfInputs (some "my-bucket") none) sampleCommon).2
      _ "filename" rfl (by decide)⟩

/-- C6 as stated fails: two environments that agree on `STORAGE_BUCKET_NAME` and on
`S3_CUSTOM_DOMAIN` export different configurations, and the bucket name the module
uses is not the value of `STORAGE_BUCKET_NAME`. -/
theorem unprefixed_variables_not_read :
    Env.ofList [("STORAGE_BUCKET_NAME", "my-bucket")] "STORAGE_BUCKET_NAME" =
      Env.ofList [("STORAGE_BUCKET_NAME", "my-bucket"),
        ("DJANGO_AWS_STORAGE_BUCKET_NAME", "other")] "STORAGE_BUCKET_NAME" ∧
    Env.ofList [("STORAGE_BUCKET_NAME", "my-bucket")] "S3_CUSTOM_DOMAIN" =
      Env.ofList [("STORAGE_BUCKET_NAME", "my-bucket"),
        ("DJANGO_AWS_STORAGE_BUCKET_NAME", "other")] "S3_CUSTOM_DOMAIN" ∧
    moduleExports concatArrays (Env.ofList [("STORAGE_BUCKET_NAME", "my-bucket")]) [] ≠
      moduleExports concatArrays (Env.ofList [("STORAGE_BUCKET_NAME", "my-bucket"),
        ("DJANGO_AWS_STORAGE_BUCKET_NAME", "other")]) [] ∧
    s3BucketName (Env.ofList [("STORAGE_BUCKET_NAME", "my-bucket")]) ≠
      Env.ofList [("STORAGE_BUCKET_NAME", "my-bucket")] "STORAGE_BUCKET_NAME" ∧
    getPath (.obj (moduleExports concatArrays
        (Env.ofList [("STORAGE_BUCKET_NAME", "my-bucket")]) [])) ["output", "publicPath"] =
      some (.str "https://undefined.s3.amazonaws.com/static/webpack_bundles/") := by
  refine ⟨by decide, by decide, ?_, by decide, ?_⟩
  · intro h
    have h1 := getPath_publicPath_exports concatArrays
      (Env.ofList [("STORAGE_BUCKET_NAME", "my-bucket")]) []
    have h2 := getPath_publicPath_exports concatArrays
      (Env.ofList [("STORAGE_BUCKET_NAME", "my-bucket"),
        ("DJANGO_AWS_STORAGE_BUCKET_NAME", "other")]) []
    rw [h, h2] at h1
    have h3 : staticUrl (Env.ofList [("STORAGE_BUCKET_NAME", "my-bucket"),
        ("DJANGO_AWS_STORAGE_BUCKET_NAME", "other")]) ++ "webpack_bundles/" =
        staticUrl (Env.ofList [("STORAGE_BUCKET_NAME", "my-bucket")]) ++
          "webpack_bundles/" := by
      injection h1 with h1
      injection h1
    exact absurd h3 (by decide)
  · rw [getPath_publicPath_exports]
    rfl

/-- C6, amended: the module reads the environment only through the variables
`DJANGO_AWS_STORAGE_BUCKET_NAME` (the bucket name) and `DJANGO_AWS_S3_CUSTOM_DOMAIN`
(the custom domain): two environments that agree on these two variables export the
same configuration. -/
theorem exports_depend_on_prefixed_variables
    (join : List JsValue → List JsValue → List JsValue) (env1 env2 : Env)
    (commonConfig : Config)
    (hb : env1 "DJANGO_AWS_STORAGE_BUCKET_NAME" = env2 "DJANGO_AWS_STORAGE_BUCKET_NAME")
    (hc : env1 "DJANGO_AWS_S3_CUSTOM_DOMAIN" = env2 "DJANGO_AWS_S3_CUSTOM_DOMAIN") :
    s3BucketName env1 = env1 "DJANGO_AWS_STORAGE_BUCKET_NAME" ∧
      awsS3Domain env1 =
        some (resolvedDomain (interpolate (env1 "DJANGO_AWS_STORAGE_BUCKET_NAME"))
          (env1 "DJANGO_AWS_S3_CUSTOM_DOMAIN")) ∧
      moduleExports join env1 commonConfig = moduleExports join env2 commonConfig := by
  refine ⟨rfl, awsS3Domain_eq env1, ?_⟩
  unfold moduleExports
  rw [overlay_congr env1 env2 hb hc]

/-- Witness of C6, amended: two environments that differ only in the variable
`STORAGE_BUCKET_NAME`. -/
theorem exports_depend_on_prefixed_variables_witness :
    (Env.ofList [("DJANGO_AWS_STORAGE_BUCKET_NAME", "my-bucket"),
        ("STORAGE_BUCKET_NAME", "one")] "DJANGO_AWS_STORAGE_BUCKET_NAME" =
      Env.ofList [("DJANGO_AWS_STORAGE_BUCKET_NAME", "my-bucket"),
        ("STORAGE_BUCKET_NAME", "two")] "DJANGO_AWS_STORAGE_BUCKET_NAME" ∧
      Env.ofList [("DJANGO_AWS_STORAGE_BUCKET_NAME", "my-bucket"),
        ("STORAGE_BUCKET_NAME", "one")] "DJANGO_AWS_S3_CUSTOM_DOMAIN" =
      Env.ofList [("DJANGO_AWS_STORAGE_BUCKET_NAME", "my-bucket"),
        ("STORAGE_BUCKET_NAME", "two")] "DJANGO_AWS_S3_CUSTOM_DOMAIN") ∧
    moduleExports concatArrays (Env.ofList [("DJANGO_AWS_STORAGE_BUCKET_NAME", "my-bucket"),
        ("STORAGE_BUCKET_NAME", "one")]) sampleCommon =
      moduleExports concatArrays (Env.ofList [("DJANGO_AWS_STORAGE_BUCKET_NAME", "my-bucket"),
        ("STORAGE_BUCKET_NAME", "two")]) sampleCommon :=
  ⟨⟨by decide, by decide⟩,
    (exports_depend_on_prefixed_variables concatArrays _ _ sampleCommon
      (by decide) (by decide)).2.2⟩

/-- C7: when the bucket name and the custom domain are both absent, the absent
bucket name is written "undefined": the resolved domain is
"undefined.s3.amazonaws.com", `output.publicPath` is
"https://undefined.s3.amazonaws.com/static/webpack_bundles/", which contains
"undefined.s3.amazonaws.com", and loading the module raises no error for a common
configuration the merge function accepts. -/
theorem absent_bucket_gives_undefined (join : List JsValue → List JsValue → List JsValue)
    (env : Env) (commonConfig : Config)
    (hb : env "DJANGO_AWS_STORAGE_BUCKET_NAME" = none)
    (hc : env "DJANGO_AWS_S3_CUSTOM_DOMAIN" = none) :
    awsS3Domain env = some "undefined.s3.amazonaws.com" ∧
      getPath (.obj (moduleExports join env commonConfig)) ["output", "publicPath"] =
        some (.str "https://undefined.s3.amazonaws.com/static/webpack_bundles/") ∧
      HasSubstring "https://undefined.s3.amazonaws.com/static/webpack_bundles/"
        "undefined.s3.amazonaws.com" ∧
      (∀ accepts : Config → Bool, accepts commonConfig = true →
        requireProdConfig accepts join env commonConfig =
          .ok (moduleExports join env commonConfig)) := by
  have hd : awsS3Domain env = some "undefined.s3.amazonaws.com" := by
    simp only [awsS3Domain, s3BucketName, truthy, hb, hc, interpolate]
    rfl
  refine ⟨hd, ?_, ⟨"https://", "/static/webpack_bundles/", by decide⟩, ?_⟩
  · rw [getPath_publicPath_exports]
    simp only [staticUrl, hd, interpolate]
    rfl
  · intro accepts h
    simp [requireProdConfig, h]

/-- Witness of C7: the environment in which no variable is set. -/
theorem absent_bucket_gives_undefined_witness :
    (envOfInputs none none "DJANGO_AWS_STORAGE_BUCKET_NAME" = none ∧
      envOfInputs none none "DJANGO_AWS_S3_CUSTOM_DOMAIN" = none) ∧
    getPath (.obj (moduleExports concatArrays (envOfInputs none none) sampleCommon))
        ["output", "publicPath"] =
      some (.str "https://undefined.s3.amazonaws.com/static/webpack_bundles/") :=
  ⟨⟨rfl, rfl⟩,
    (absent_bucket_gives_undefined concatArrays (envOfInputs none none) sampleCommon
      rfl rfl).2.1⟩

/-- C8: the exported configuration is a function of the bucket name, the custom
domain and the common configuration (it is `buildConfig` of these three), so two
evaluations that agree on the three produce the same configuration; the resolved
domain and `output.publicPath` are functions of the bucket name and the custom
domain alone, so they do not change with the common configuration. -/
theorem exports_pure (join : List JsValue → List JsValue → List JsValue) :
    (∀ (env : Env) (commonConfig : Config),
        moduleExports join env commonConfig =
          buildConfig join (env "DJANGO_AWS_STORAGE_BUCKET_NAME")
            (env "DJANGO_AWS_S3_CUSTOM_DOMAIN") commonConfig) ∧
      (∀ (env1 env2 : Env) (base1 base2 : Config),
        env1 "DJANGO_AWS_STORAGE_BUCKET_NAME" = env2 "DJANGO_AWS_STORAGE_BUCKET_NAME" →
        env1 "DJANGO_AWS_S3_CUSTOM_DOMAIN" = env2 "DJANGO_AWS_S3_CUSTOM_DOMAIN" →
        (base1 = base2 → moduleExports join env1 base1 = moduleExports join env2 base2) ∧
          awsS3Domain env1 = awsS3Domain env2 ∧
          getPath (.obj (moduleExports join env1 base1)) ["output", "publicPath"] =
            getPath (.obj (moduleExports join env2 base2)) ["output", "publicPath"]) ∧
      (∀ (env : Env) (commonConfig : Config),
        awsS3Domain env =
            some (resolvedDomain (interpolate (env "DJANGO_AWS_STORAGE_BUCKET_NAME"))
              (env "DJANGO_AWS_S3_CUSTOM_DOMAIN")) ∧
          getPath (.obj (moduleExports join env commonConfig)) ["output", "publicPath"] =
            some (.str (publicPath (interpolate (env "DJANGO_AWS_STORAGE_BUCKET_NAME"))
              (env "DJANGO_AWS_S3_CUSTOM_DOMAIN")))) := by
  have congr : ∀ (env1 env2 : Env),
      env1 "DJANGO_AWS_STORAGE_BUCKET_NAME" = env2 "DJANGO_AWS_STORAGE_BUCKET_NAME" →
      env1 "DJANGO_AWS_S3_CUSTOM_DOMAIN" = env2 "DJANGO_AWS_S3_CUSTOM_DOMAIN" →
      overlay env1 = overlay env2 := overlay_congr
  refine ⟨?_, ?_, ?_⟩
  · intro env commonConfig
    unfold buildConfig moduleExports
    rw [congr env (envOfInputs (env "DJANGO_AWS_STORAGE_BUCKET_NAME")
      (env "DJANGO_AWS_S3_CUSTOM_DOMAIN")) (by simp [envOfInputs]) (by simp [envOfInputs])]
  · intro env1 env2 base1 base2 hb hc
    refine ⟨?_, ?_, ?_⟩
    · intro hbase
      unfold moduleExports
      rw [congr env1 env2 hb hc, hbase]
    · simp [awsS3Domain, s3BucketName, hb, hc]
    · rw [getPath_publicPath_exports, getPath_publicPath_exports]
      simp [staticUrl, awsS3Domain, s3BucketName, hb, hc]
  · intro env commonConfig
    refine ⟨awsS3Domain_eq env, ?_⟩
    rw [getPath_publicPath_exports, staticUrl_eq]
    rfl

/-- Witness of C8: two environments with the same bucket name and no custom domain,
and two different common configurations. -/
theorem exports_pure_witness :
    (Env.ofList [("DJANGO_AWS_STORAGE_BUCKET_NAME", "my-bucket"), ("HOME", "/root")]
        "DJANGO_AWS_STORAGE_BUCKET_NAME" =
      envOfInputs (some "my-bucket") none "DJANGO_AWS_STORAGE_BUCKET_NAME" ∧
      Env.ofList [("DJANGO_AWS_STORAGE_BUCKET_NAME", "my-bucket"), ("HOME", "/root")]
        "DJANGO_AWS_S3_CUSTOM_DOMAIN" =
      envOfInputs (some "my-bucket") none "DJANGO_AWS_S3_CUSTOM_DOMAIN") ∧
    getPath (.obj (moduleExports concatArrays
        (Env.ofList [("DJANGO_AWS_STORAGE_BUCKET_NAME", "my-bucket"), ("HOME", "/root")])
        sampleCommon)) ["output", "publicPath"] =
      getPath (.obj (moduleExports concatArrays (envOfInputs (some "my-bucket") none) []))
        ["output", "publicPath"] :=
  ⟨⟨by decide, by decide⟩,
    ((exports_pure concatArrays).2.1 _ _ sampleCommon [] (by decide) (by decide)).2.2⟩

/-- C9: the module raises no failure of its own: for every environment (each
variable absent, empty or any string) and every common configuration the merge
function accepts, loading the module returns the exported configuration, the
resolved domain, the static URL and the public path being strings; a failure of the
load is always the merge function rejecting the common configuration. -/
theorem require_returns (accepts : Config → Bool)
    (join : List JsValue → List JsValue → List JsValue) (env : Env)
    (commonConfig : Config) :
    (accepts commonConfig = true →
        requireProdConfig accepts join env commonConfig =
          .ok (moduleExports join env commonConfig)) ∧
      (∀ e : JsError, requireProdConfig accepts join env commonConfig = .error e →
        accepts commonConfig = false) ∧
      (∃ domain : String, awsS3Domain env = some domain ∧
        staticUrl env = "https://" ++ domain ++ "/static/" ∧
        getPath (.obj (moduleExports join env commonConfig)) ["output", "publicPath"] =
          some (.str ("https://" ++ domain ++ "/static/" ++ "webpack_bundles/"))) := by
  refine ⟨?_, ?_, ?_⟩
  · intro h
    simp [requireProdConfig, h]
  · intro e h
    cases hacc : accepts commonConfig
    · rfl
    · simp [requireProdConfig, hacc] at h
  · refine ⟨_, awsS3Domain_eq env, ?_, ?_⟩
    · simp [staticUrl, awsS3Domain_eq, interpolate]
    · rw [getPath_publicPath_exports]
      simp [staticUrl, awsS3Domain_eq, interpolate]

/-- Witness of C9: a merge function that accepts every object, an environment with
an empty bucket name, and the sample configuration. -/
theorem require_returns_witness :
    (fun _ : Config => true) sampleCommon = true ∧
    requireProdConfig (fun _ => true) concatArrays (envOfInputs (some "") none)
        sampleCommon =
      .ok (moduleExports concatArrays (envOfInputs (some "") none) sampleCommon) :=
  ⟨rfl,
    (require_returns (fun _ => true) concatArrays (envOfInputs (some "") none)
      sampleCommon).1 rfl⟩

/-- C10: the overlay is written last and wins: at each of the paths `mode`,
`devtool`, `bail` and `output.publicPath` the exported configuration holds the
overlay's value ("production", "source-map", true and the environment-derived
public path), and when the common configuration defines such a path with another
value, the exported value is not the common configuration's value. -/
theorem overlay_wins (join : List JsValue → List JsValue → List JsValue)
    (env : Env) (commonConfig : Config) :
    (∀ (path : List String) (v : JsValue), path ∈ overlayPaths →
        getPath (.obj commonConfig) path = some v →
        some v ≠ getPath (.obj (overlay env)) path →
        getPath (.obj (moduleExports join env commonConfig)) path =
            getPath (.obj (overlay env)) path ∧
          getPath (.obj (moduleExports join env commonConfig)) path ≠ some v) ∧
      getPath (.obj (overlay env)) ["mode"] = some (.str "production") ∧
      getPath (.obj (overlay env)) ["devtool"] = some (.str "source-map") ∧
      getPath (.obj (overlay env)) ["bail"] = some (.bool true) ∧
      getPath (.obj (overlay env)) ["output", "publicPath"] =
        some (.str (publicPath (interpolate (env "DJANGO_AWS_STORAGE_BUCKET_NAME"))
          (env "DJANGO_AWS_S3_CUSTOM_DOMAIN"))) := by
  refine ⟨?_, by simp [getPath, overlay, getKey], by simp [getPath, overlay, getKey],
    by simp [getPath, overlay, getKey], ?_⟩
  · intro path v hp _ hne
    have h := getPath_exports_overlayPaths join env commonConfig path hp
    exact ⟨h, fun hv => hne (by rw [← hv, h])⟩
  · simp [getPath, overlay, getKey, staticUrl_eq, publicPath, s3BucketName]

/-- Witness of C10: the sample configuration defines `mode` as "development" and
`output.publicPath` as "/static/"; the exported configuration holds "production"
and the environment-derived public path. -/
theorem overlay_wins_witness :
    (["output", "publicPath"] ∈ overlayPaths ∧
      getPath (.obj sampleCommon) ["output", "publicPath"] = some (.str "/static/") ∧
      some (.str "/static/") ≠
        getPath (.obj (overlay (envOfInputs (some "my-bucket") none)))
          ["output", "publicPath"]) ∧
    getPath (.obj (moduleExports concatArrays (envOfInputs (some "my-bucket") none)
        sampleCommon)) ["output", "publicPath"] =
      getPath (.obj (overlay (envOfInputs (some "my-bucket") none)))
        ["output", "publicPath"] ∧
    getPath (.obj (moduleExports concatArrays (envOfInputs (some "my-bucket") none)
        sampleCommon)) ["output", "publicPath"] ≠ some (.str "/static/") := by
  have hp : ["output", "publicPath"] ∈ overlayPaths := by simp [overlayPaths]
  have hbase : getPath (.obj sampleCommon) ["output", "publicPath"] =
      some (.str "/static/") := rfl
  have hne : some (JsValue.str "/static/") ≠
      getPath (.obj (overlay (envOfInputs (some "my-bucket") none)))
        ["output", "publicPath"] := by
    intro h
    have h2 : getPath (.obj (overlay (envOfInputs (some "my-bucket") none)))
        ["output", "publicPath"] =
        some (.str "https://my-bucket.s3.amazonaws.com/static/webpack_bundles/") := rfl
    rw [h2] at h
    injection h with h
    injection h with h
    exact absurd h (by decide)
  exact ⟨⟨hp, hbase, hne⟩,
    (overlay_wins concatArrays (envOfInputs (some "my-bucket") none) sampleCommon).1
      _ _ hp hbase hne⟩

end ProdConfig
